import Mathlib

/-!
Formal model of a two-party chat relay: a project store binding a
customer chat and an executor chat under a unique slug, and the pure
routing logic that decides where an inbound message is forwarded.

The store models `storage.py` (`SQLiteProjectStorage`): the SQLite table
is a list of rows, `SELECT ... WHERE slug = ?` is a first-match search,
and each `UPDATE ... WHERE slug = ?` is a map over the matching rows.
The router models `main.py` (`relay_message`, `relay_text`,
`relay_media`): Python truthiness of optional integers (`None` and `0`
are falsy), optional strings (`None` and `""` are falsy) and object
fields (`None` is falsy) is made explicit.
-/

namespace TelegramRelay

/-- A stored project row: slug (primary key), optional customer chat id,
optional executor chat id, and the active flag. -/
structure Project where
  slug : String
  customer_chat_id : Option Int
  executor_chat_id : Option Int
  is_active : Bool
  deriving DecidableEq, Repr

/-- The store state: the rows of the `projects` table, in insertion order. -/
structure Store where
  projects : List Project
  deriving DecidableEq, Repr

/-- Storage errors raised by the store operations
(`ValueError` messages in `storage.py`). -/
inductive StorageErr where
  | alreadyExists
  | notFound
  deriving DecidableEq, Repr

/-- First row whose slug equals `sl` (`SELECT * FROM projects WHERE slug = ?`,
`fetchone`). -/
def findSlug : List Project → String → Option Project
  | [], _ => none
  | p :: ps, sl => if p.slug = sl then some p else findSlug ps sl

/-- `SQLiteProjectStorage.get`: look a project up by slug. -/
def getProject (s : Store) (sl : String) : Option Project :=
  findSlug s.projects sl

/-- First row one of whose endpoints equals `c`
(`SELECT * FROM projects WHERE executor_chat_id = ? OR customer_chat_id = ?`,
`fetchone`; SQL `NULL = x` never matches). -/
def findChat : List Project → Int → Option Project
  | [], _ => none
  | p :: ps, c =>
      if p.executor_chat_id = some c ∨ p.customer_chat_id = some c then some p
      else findChat ps c

/-- `SQLiteProjectStorage.find_by_chat`. -/
def find_by_chat (s : Store) (c : Int) : Option Project :=
  findChat s.projects c

/-- `UPDATE projects SET ... WHERE slug = ?`: rewrite every row whose slug
equals `sl` with `g`, leave the others alone. -/
def updateBySlug (s : Store) (sl : String) (g : Project → Project) : Store :=
  ⟨s.projects.map fun p => if p.slug = sl then g p else p⟩

/-- `SQLiteProjectStorage.create_project`: fail with `alreadyExists` when the
slug is taken, otherwise insert a fresh row with no customer and the active
flag set. The pair returns the store after the call and the operation's
result. -/
def create_project (s : Store) (sl : String) (executor_chat_id : Int) :
    Store × Except StorageErr Project :=
  match findSlug s.projects sl with
  | some _ => (s, .error .alreadyExists)
  | none =>
      let p : Project := ⟨sl, none, some executor_chat_id, true⟩
      (⟨s.projects ++ [p]⟩, .ok p)

/-- `SQLiteProjectStorage.bind_customer`: fail with `notFound` when the slug
is unknown, otherwise set the customer chat id and force the active flag,
and return the row re-read from the updated store (`return self.get(slug)`). -/
def bind_customer (s : Store) (sl : String) (customer_chat_id : Int) :
    Store × Except StorageErr Project :=
  match findSlug s.projects sl with
  | none => (s, .error .notFound)
  | some _ =>
      let s2 := updateBySlug s sl fun r =>
        { r with customer_chat_id := some customer_chat_id, is_active := true }
      match getProject s2 sl with
      | some q => (s2, .ok q)
      | none => (s2, .error .notFound)

/-- A column cleared by `unlink_chat` (the `updates` list in `storage.py`). -/
inductive Col where
  | executor
  | customer
  deriving DecidableEq, Repr

/-- One `UPDATE projects SET {column} = NULL, is_active = 1 WHERE slug = ?`
applied to a row. -/
def applyUnlink (p : Project) : Col → Project
  | .executor => { p with executor_chat_id := none, is_active := true }
  | .customer => { p with customer_chat_id := none, is_active := true }

/-- `SQLiteProjectStorage.unlink_chat`: fail with `notFound` when the slug is
unknown; otherwise collect the endpoint columns equal to `chat_id` (both
`if` tests run, so both columns can be collected), and either deactivate the
row when none matched, or clear every collected column and set the active
flag. The row re-read from the updated store is returned. -/
def unlink_chat (s : Store) (sl : String) (chat_id : Int) :
    Store × Except StorageErr Project :=
  match findSlug s.projects sl with
  | none => (s, .error .notFound)
  | some project =>
      let updates : List Col :=
        (if project.executor_chat_id = some chat_id then [Col.executor] else []) ++
        (if project.customer_chat_id = some chat_id then [Col.customer] else [])
      let s2 :=
        if updates.isEmpty then
          updateBySlug s sl fun r => { r with is_active := false }
        else
          updateBySlug s sl fun r => updates.foldl applyUnlink r
      match getProject s2 sl with
      | some q => (s2, .ok q)
      | none => (s2, .error .notFound)

/-- Ordering of rows by slug, as `ORDER BY slug` orders the `TEXT` key. -/
def slugLE (a b : Project) : Prop := a.slug ≤ b.slug

instance : DecidableRel slugLE := fun a b =>
  inferInstanceAs (Decidable (a.slug ≤ b.slug))

instance : IsTotal Project slugLE := ⟨fun a b => le_total a.slug b.slug⟩

instance : IsTrans Project slugLE := ⟨fun _ _ _ h1 h2 => le_trans h1 h2⟩

/-- `SQLiteProjectStorage.list_projects`:
`SELECT * FROM projects ORDER BY slug`, materialized as a list. -/
def list_projects (s : Store) : List Project :=
  List.insertionSort slugLE s.projects

/-- A message author (`message.from_user`). -/
structure User where
  id : Int
  is_bot : Bool
  deriving DecidableEq, Repr

/-- An inbound Telegram message, reduced to the fields `relay_message`
inspects: author, text, caption, and the attachment fields (a photo is a
list of file ids, the other attachments are an optional file id). -/
structure Message where
  from_user : Option User
  text : Option String
  caption : Option String
  photo : List String
  document : Option String
  voice : Option String
  audio : Option String
  video : Option String
  deriving DecidableEq, Repr

/-- The role of the endpoint a forwarded message came from. -/
inductive Role where
  | customer
  | executor
  deriving DecidableEq, Repr

/-- `action_labels` of `main.py`: the fixed role labels. -/
def action_labels : Role → String
  | .customer => "👤 Клиент:"
  | .executor => "🧑‍🎨 Команда:"

/-- Python truthiness of an optional integer: `None` and `0` are falsy. -/
def intTruthy : Option Int → Bool
  | none => false
  | some n => n != 0

/-- Python truthiness of an optional string: `None` and `""` are falsy. -/
def strTruthy : Option String → Bool
  | none => false
  | some s => !s.isEmpty

/-- Python `a or d` for an optional string `a` and a string default `d`. -/
def strOrD (a : Option String) (d : String) : String :=
  match a with
  | some s => if s.isEmpty then d else s
  | none => d

/-- An outbound send issued by the relay (the `bot.send_*` calls). -/
inductive Outgoing where
  | sendMessage (chat : Int) (text : String)
  | sendPhoto (chat : Int) (file : String) (caption : Option String)
  | sendDocument (chat : Int) (file : String) (caption : Option String)
  | sendVoice (chat : Int) (file : String) (caption : Option String)
  | sendAudio (chat : Int) (file : String) (caption : Option String)
  | sendVideo (chat : Int) (file : String) (caption : Option String)
  deriving DecidableEq, Repr

/-- The prefixed caption of `relay_media`:
`f"{prefix} {caption}" if caption else None`. -/
def captionTagged (caption : Option String) (r : Role) : Option String :=
  match caption with
  | some c => if c.isEmpty then none else some (action_labels r ++ " " ++ c)
  | none => none

/-- `relay_text` of `main.py`: send the text (or caption, or `""`) with the
role label in front. -/
def relay_text (msg : Message) (target_chat_id : Int) (r : Role) : Outgoing :=
  .sendMessage target_chat_id
    (action_labels r ++ " " ++ strOrD msg.text (strOrD msg.caption ""))

/-- `relay_media` of `main.py`: forward the first recognized attachment kind
(photo, then document, voice, audio, video) as the same kind with the
prefixed caption; with no recognized attachment, fall back to a prefixed
text message (text, or caption, or the placeholder). A photo is sent by its
last file id (`message.photo[-1]`). -/
def relay_media (msg : Message) (target_chat_id : Int) (r : Role) : Outgoing :=
  let cap := captionTagged msg.caption r
  if msg.photo ≠ [] then .sendPhoto target_chat_id (msg.photo.getLastD "") cap
  else
    match msg.document, msg.voice, msg.audio, msg.video with
    | some d, _, _, _ => .sendDocument target_chat_id d cap
    | none, some v, _, _ => .sendVoice target_chat_id v cap
    | none, none, some a, _ => .sendAudio target_chat_id a cap
    | none, none, none, some v => .sendVideo target_chat_id v cap
    | none, none, none, none =>
        .sendMessage target_chat_id
          (action_labels r ++ " " ++
            strOrD msg.text (strOrD msg.caption "(неизвестный тип сообщения)"))

/-- The loop guard of `relay_message`:
`message.from_user and message.from_user.is_bot`. -/
def msgFromBot (msg : Message) : Bool :=
  match msg.from_user with
  | some u => u.is_bot
  | none => false

/-- The routing decision of `relay_message` (`main.py` lines 178-190): find
the project bound to the source chat; drop when there is none or it is
inactive; when the source is the executor chat and the customer chat id is
truthy, forward to the customer chat with role `executor`; else when the
source is the customer chat and the executor chat id is truthy, forward to
the executor chat with role `customer`; else drop. -/
def route (s : Store) (source_chat_id : Int) : Option (Int × Role) :=
  match find_by_chat s source_chat_id with
  | none => none
  | some project =>
      if project.is_active = false then none
      else if project.executor_chat_id = some source_chat_id ∧
          intTruthy project.customer_chat_id = true then
        some (project.customer_chat_id.getD 0, Role.executor)
      else if project.customer_chat_id = some source_chat_id ∧
          intTruthy project.executor_chat_id = true then
        some (project.executor_chat_id.getD 0, Role.customer)
      else none

/-- `relay_message` of `main.py`: drop messages authored by a bot, route by
the source chat, then forward as plain text when the message is text-only,
and through `relay_media` otherwise. `none` means nothing is sent. -/
def relay_message (s : Store) (msg : Message) (source_chat_id : Int) :
    Option Outgoing :=
  if msgFromBot msg = true then none
  else
    match route s source_chat_id with
    | none => none
    | some (target_chat_id, r) =>
        if strTruthy msg.text = true ∧ msg.photo.isEmpty = true ∧
            msg.document.isNone = true ∧ msg.voice.isNone = true ∧
            msg.audio.isNone = true ∧ msg.video.isNone = true then
          some (relay_text msg target_chat_id r)
        else some (relay_media msg target_chat_id r)

/-- The relay's own automated identity: a bot account. -/
def relayIdentity (botUserId : Int) : User := ⟨botUserId, true⟩

/-! Helper lemmas about the row-level search and update primitives. -/

theorem findSlug_eq_slug : ∀ {l : List Project} {sl : String} {p : Project},
    findSlug l sl = some p → p.slug = sl := by
  intro l
  induction l with
  | nil => intro sl p h; simp [findSlug] at h
  | cons q ps ih =>
      intro sl p h
      by_cases hq : q.slug = sl
      · rw [findSlug, if_pos hq] at h
        cases h
        exact hq
      · rw [findSlug, if_neg hq] at h
        exact ih h

theorem findSlug_map_update (l : List Project) (sl : String) (g : Project → Project)
    (hg : ∀ p, (g p).slug = p.slug) :
    findSlug (l.map fun p => if p.slug = sl then g p else p) sl =
      (findSlug l sl).map g := by
  induction l with
  | nil => rfl
  | cons q ps ih =>
      by_cases hq : q.slug = sl
      · simp only [List.map_cons, findSlug, if_pos hq, hg]
        rfl
      · simp only [List.map_cons, findSlug, if_neg hq, ih]

theorem findSlug_map_update_other (l : List Project) (sl sl' : String)
    (g : Project → Project) (hg : ∀ p, (g p).slug = p.slug) (hne : sl' ≠ sl) :
    findSlug (l.map fun p => if p.slug = sl then g p else p) sl' =
      findSlug l sl' := by
  induction l with
  | nil => rfl
  | cons q ps ih =>
      by_cases hq : q.slug = sl
      · have hq' : (g q).slug = sl' ↔ q.slug = sl' := by rw [hg]
        have hqne : ¬q.slug = sl' := fun h => hne (h ▸ hq ▸ rfl)
        simp only [List.map_cons, findSlug, if_pos hq, hg, if_neg hqne, ih]
      · simp only [List.map_cons, findSlug, if_neg hq, ih]

theorem findSlug_append_none {l : List Project} {sl : String}
    (h : findSlug l sl = none) (q : Project) :
    findSlug (l ++ [q]) sl = if q.slug = sl then some q else none := by
  induction l with
  | nil => rfl
  | cons p ps ih =>
      by_cases hp : p.slug = sl
      · rw [findSlug, if_pos hp] at h
        cases h
      · rw [findSlug, if_neg hp] at h
        rw [List.cons_append, findSlug, if_neg hp]
        exact ih h

theorem getProject_updateBySlug (s : Store) (sl : String) (g : Project → Project)
    (hg : ∀ p, (g p).slug = p.slug) :
    getProject (updateBySlug s sl g) sl = (getProject s sl).map g :=
  findSlug_map_update s.projects sl g hg

theorem getProject_updateBySlug_other (s : Store) (sl sl' : String)
    (g : Project → Project) (hg : ∀ p, (g p).slug = p.slug) (hne : sl' ≠ sl) :
    getProject (updateBySlug s sl g) sl' = getProject s sl' :=
  findSlug_map_update_other s.projects sl sl' g hg hne

theorem findSlug_append_ne (l : List Project) (q : Project) (sl' : String)
    (h : q.slug ≠ sl') : findSlug (l ++ [q]) sl' = findSlug l sl' := by
  induction l with
  | nil => simp [findSlug, if_neg h]
  | cons p ps ih =>
      by_cases hp : p.slug = sl'
      · simp [findSlug, hp]
      · simp [findSlug, hp, ih]

/-! Closed forms of the three mutating operations, per branch. -/

theorem create_project_of_found {s : Store} {sl : String} {p : Project}
    (h : getProject s sl = some p) (e : Int) :
    create_project s sl e = (s, .error .alreadyExists) := by
  have h' : findSlug s.projects sl = some p := h
  simp [create_project, h']

theorem create_project_of_missing {s : Store} {sl : String}
    (h : getProject s sl = none) (e : Int) :
    create_project s sl e =
      (⟨s.projects ++ [⟨sl, none, some e, true⟩]⟩, .ok ⟨sl, none, some e, true⟩) := by
  have h' : findSlug s.projects sl = none := h
  simp [create_project, h']

theorem bind_customer_of_missing {s : Store} {sl : String}
    (h : getProject s sl = none) (c : Int) :
    bind_customer s sl c = (s, .error .notFound) := by
  have h' : findSlug s.projects sl = none := h
  simp [bind_customer, h']

theorem bind_customer_of_found {s : Store} {sl : String} {p : Project}
    (h : getProject s sl = some p) (c : Int) :
    bind_customer s sl c =
      (updateBySlug s sl fun r =>
         { r with customer_chat_id := some c, is_active := true },
       .ok { p with customer_chat_id := some c, is_active := true }) := by
  have h' : findSlug s.projects sl = some p := h
  have h2 := getProject_updateBySlug s sl
    (fun r => { r with customer_chat_id := some c, is_active := true }) (fun _ => rfl)
  rw [h] at h2
  simp [bind_customer, h', h2]

theorem unlink_chat_of_missing {s : Store} {sl : String}
    (h : getProject s sl = none) (chat : Int) :
    unlink_chat s sl chat = (s, .error .notFound) := by
  have h' : findSlug s.projects sl = none := h
  simp [unlink_chat, h']

theorem unlink_chat_exec_only {s : Store} {sl : String} {p : Project} {chat : Int}
    (h : getProject s sl = some p) (he : p.executor_chat_id = some chat)
    (hc : p.customer_chat_id ≠ some chat) :
    unlink_chat s sl chat =
      (updateBySlug s sl fun r =>
         { r with executor_chat_id := none, is_active := true },
       .ok { p with executor_chat_id := none, is_active := true }) := by
  have h' : findSlug s.projects sl = some p := h
  have h2 : findSlug
      (updateBySlug s sl fun r => List.foldl applyUnlink r [Col.executor]).projects sl =
      some (List.foldl applyUnlink p [Col.executor]) := by
    have h3 := getProject_updateBySlug s sl
      (fun r => List.foldl applyUnlink r [Col.executor]) (fun _ => rfl)
    rw [h] at h3
    exact h3
  simp only [unlink_chat, h', if_pos he, if_neg hc, List.append_nil, List.isEmpty_cons,
    Bool.false_eq_true, if_false, getProject, h2]
  rfl

theorem unlink_chat_cust_only {s : Store} {sl : String} {p : Project} {chat : Int}
    (h : getProject s sl = some p) (he : p.executor_chat_id ≠ some chat)
    (hc : p.customer_chat_id = some chat) :
    unlink_chat s sl chat =
      (updateBySlug s sl fun r =>
         { r with customer_chat_id := none, is_active := true },
       .ok { p with customer_chat_id := none, is_active := true }) := by
  have h' : findSlug s.projects sl = some p := h
  have h2 : findSlug
      (updateBySlug s sl fun r => List.foldl applyUnlink r [Col.customer]).projects sl =
      some (List.foldl applyUnlink p [Col.customer]) := by
    have h3 := getProject_updateBySlug s sl
      (fun r => List.foldl applyUnlink r [Col.customer]) (fun _ => rfl)
    rw [h] at h3
    exact h3
  simp only [unlink_chat, h', if_neg he, if_pos hc, List.nil_append, List.isEmpty_cons,
    Bool.false_eq_true, if_false, getProject, h2]
  rfl

theorem unlink_chat_both {s : Store} {sl : String} {p : Project} {chat : Int}
    (h : getProject s sl = some p) (he : p.executor_chat_id = some chat)
    (hc : p.customer_chat_id = some chat) :
    unlink_chat s sl chat =
      (updateBySlug s sl fun r =>
         { r with customer_chat_id := none, executor_chat_id := none,
                  is_active := true },
       .ok { p with customer_chat_id := none, executor_chat_id := none,
                    is_active := true }) := by
  have h' : findSlug s.projects sl = some p := h
  have h2 : findSlug
      (updateBySlug s sl
        fun r => List.foldl applyUnlink r [Col.executor, Col.customer]).projects sl =
      some (List.foldl applyUnlink p [Col.executor, Col.customer]) := by
    have h3 := getProject_updateBySlug s sl
      (fun r => List.foldl applyUnlink r [Col.executor, Col.customer]) (fun _ => rfl)
    rw [h] at h3
    exact h3
  simp only [unlink_chat, h', if_pos he, if_pos hc, List.cons_append, List.nil_append,
    List.isEmpty_cons, Bool.false_eq_true, if_false, getProject, h2]
  rfl

theorem unlink_chat_stale {s : Store} {sl : String} {p : Project} {chat : Int}
    (h : getProject s sl = some p) (he : p.executor_chat_id ≠ some chat)
    (hc : p.customer_chat_id ≠ some chat) :
    unlink_chat s sl chat =
      (updateBySlug s sl fun r => { r with is_active := false },
       .ok { p with is_active := false }) := by
  have h' : findSlug s.projects sl = some p := h
  have h2 : findSlug
      (updateBySlug s sl fun r => { r with is_active := false }).projects sl =
      some { p with is_active := false } := by
    have h3 := getProject_updateBySlug s sl
      (fun r => { r with is_active := false }) (fun _ => rfl)
    rw [h] at h3
    exact h3
  simp only [unlink_chat, h', if_neg he, if_neg hc, List.append_nil, List.isEmpty_nil,
    if_true, getProject, h2]

/-! Claim theorems. -/

/-- C1 (amended): when both stored endpoint fields of the project equal the
unlinked chat id, both branches of the unlink policy fire, not just the
executor one: the executor and the customer chat ids are both cleared and
the active flag is set. -/
theorem C1_unlink_both_endpoints (s : Store) (sl : String) (chat : Int)
    (p : Project) (h : getProject s sl = some p)
    (he : p.executor_chat_id = some chat) (hc : p.customer_chat_id = some chat) :
    unlink_chat s sl chat =
      (updateBySlug s sl fun r =>
         { r with customer_chat_id := none, executor_chat_id := none,
                  is_active := true },
       .ok { p with customer_chat_id := none, executor_chat_id := none,
                    is_active := true }) :=
  unlink_chat_both h he hc

/-- Witness for C1: a concrete project bound to chat 7 on both sides; the
unlink clears both endpoints and keeps the project active. -/
theorem C1_unlink_both_endpoints_witness :
    unlink_chat ⟨[⟨"p", some 7, some 7, true⟩]⟩ "p" 7 =
      (⟨[⟨"p", none, none, true⟩]⟩, .ok ⟨"p", none, none, true⟩) := by
  exact C1_unlink_both_endpoints ⟨[⟨"p", some 7, some 7, true⟩]⟩ "p" 7
    ⟨"p", some 7, some 7, true⟩ rfl rfl rfl

/-- C1 counterexample: the claim says that when both endpoints equal the
chat id only the executor branch fires and the customer endpoint is left
unchanged; on the concrete store the code clears the customer endpoint
too. -/
theorem C1_counterexample :
    unlink_chat ⟨[⟨"p", some 7, some 7, true⟩]⟩ "p" 7 =
      (⟨[⟨"p", none, none, true⟩]⟩, .ok ⟨"p", none, none, true⟩) ∧
    Project.customer_chat_id ⟨"p", none, none, true⟩ ≠ some 7 :=
  ⟨rfl, by decide⟩

/-- C4: unlink policy on an existing project: an executor-only match clears
the executor chat id and activates; otherwise a customer match clears the
customer chat id and activates; a match of neither field only deactivates;
an unknown slug fails with notFound. -/
theorem C4_unlink_policy (s : Store) (sl : String) (chat : Int) :
    (getProject s sl = none → unlink_chat s sl chat = (s, .error .notFound)) ∧
    (∀ p, getProject s sl = some p →
      (p.executor_chat_id = some chat → p.customer_chat_id ≠ some chat →
        (unlink_chat s sl chat).2 =
          .ok { p with executor_chat_id := none, is_active := true }) ∧
      (p.executor_chat_id ≠ some chat → p.customer_chat_id = some chat →
        (unlink_chat s sl chat).2 =
          .ok { p with customer_chat_id := none, is_active := true }) ∧
      (p.executor_chat_id ≠ some chat → p.customer_chat_id ≠ some chat →
        (unlink_chat s sl chat).2 = .ok { p with is_active := false })) := by
  refine ⟨fun h => unlink_chat_of_missing h chat, fun p h => ⟨?_, ?_, ?_⟩⟩
  · intro he hc
    rw [unlink_chat_exec_only h he hc]
  · intro he hc
    rw [unlink_chat_cust_only h he hc]
  · intro he hc
    rw [unlink_chat_stale h he hc]

/-- Witness for C4: unlinking chat 111 from a project whose executor chat is
111 and whose customer chat is 222 clears the executor and stays active. -/
theorem C4_unlink_policy_witness :
    (unlink_chat ⟨[⟨"p", some 222, some 111, true⟩]⟩ "p" 111).2 =
      .ok ⟨"p", some 222, none, true⟩ := by
  exact ((C4_unlink_policy ⟨[⟨"p", some 222, some 111, true⟩]⟩ "p" 111).2
    ⟨"p", some 222, some 111, true⟩ rfl).1 rfl (by decide)

/-- C5: creating on a taken slug always fails with alreadyExists and the
pre-existing record is unchanged; creating on a free slug persists a record
with the given slug and executor chat id, no customer chat id, and the
active flag set. -/
theorem C5_create_project (s : Store) (sl : String) (e : Int) :
    (∀ p, getProject s sl = some p →
      create_project s sl e = (s, .error .alreadyExists) ∧
      getProject (create_project s sl e).1 sl = some p) ∧
    (getProject s sl = none →
      create_project s sl e =
        (⟨s.projects ++ [⟨sl, none, some e, true⟩]⟩,
         .ok ⟨sl, none, some e, true⟩) ∧
      getProject (create_project s sl e).1 sl = some ⟨sl, none, some e, true⟩) := by
  constructor
  · intro p h
    refine ⟨create_project_of_found h e, ?_⟩
    rw [create_project_of_found h e]
    exact h
  · intro h
    refine ⟨create_project_of_missing h e, ?_⟩
    rw [create_project_of_missing h e]
    have h2 := findSlug_append_none h (⟨sl, none, some e, true⟩ : Project)
    simpa [getProject] using h2

/-- Witness for C5: creating slug "p" a second time fails and leaves the
record as it was. -/
theorem C5_create_project_witness :
    create_project ⟨[⟨"p", none, some 1, true⟩]⟩ "p" 5 =
      (⟨[⟨"p", none, some 1, true⟩]⟩, .error .alreadyExists) := by
  exact ((C5_create_project ⟨[⟨"p", none, some 1, true⟩]⟩ "p" 5).1
    ⟨"p", none, some 1, true⟩ rfl).1

/-- C6: binding a customer fails with notFound exactly when the slug is
unknown; on success it overwrites the customer chat id (last bind wins) and
forces the active flag. -/
theorem C6_bind_customer (s : Store) (sl : String) (c : Int) :
    (getProject s sl = none → bind_customer s sl c = (s, .error .notFound)) ∧
    (∀ p, getProject s sl = some p →
      bind_customer s sl c =
        (updateBySlug s sl fun r =>
           { r with customer_chat_id := some c, is_active := true },
         .ok { p with customer_chat_id := some c, is_active := true })) ∧
    ((bind_customer s sl c).2 = .error .notFound ↔ getProject s sl = none) := by
  refine ⟨fun h => bind_customer_of_missing h c,
    fun p h => bind_customer_of_found h c, ?_⟩
  cases h : getProject s sl with
  | none =>
      rw [bind_customer_of_missing h c]
      simp
  | some p =>
      rw [bind_customer_of_found h c]
      simp

/-- Witness for C6: rebinding the customer of "p" from 3 to 9 overwrites the
customer chat id and keeps the project active. -/
theorem C6_bind_customer_witness :
    bind_customer ⟨[⟨"p", some 3, some 1, false⟩]⟩ "p" 9 =
      (⟨[⟨"p", some 9, some 1, true⟩]⟩, .ok ⟨"p", some 9, some 1, true⟩) := by
  exact (C6_bind_customer ⟨[⟨"p", some 3, some 1, false⟩]⟩ "p" 9).2.1
    ⟨"p", some 3, some 1, false⟩ rfl

/-- C8: list_projects is sorted by slug ascending, is a permutation of the
stored rows (it materializes all projects), and repeating it on the same
store state yields the identical sequence. -/
theorem C8_list_projects (s : Store) :
    List.Sorted slugLE (list_projects s) ∧
    List.Perm (list_projects s) s.projects ∧
    list_projects s = list_projects s :=
  ⟨List.sorted_insertionSort slugLE s.projects,
   List.perm_insertionSort slugLE s.projects, rfl⟩

/-- C9: frame conditions of the mutating operations: a successful bind
keeps the slug and the executor chat id; a successful unlink that clears
one endpoint keeps the slug and the non-matching endpoint; a stale unlink
keeps the slug and both endpoints; and no operation changes the lookup of
any other slug. -/
theorem C9_frame (s : Store) (sl sl' : String) (c chat : Int) :
    (∀ p q, getProject s sl = some p → (bind_customer s sl c).2 = .ok q →
       q.slug = p.slug ∧ q.executor_chat_id = p.executor_chat_id) ∧
    (∀ p q, getProject s sl = some p → p.executor_chat_id = some chat →
       p.customer_chat_id ≠ some chat → (unlink_chat s sl chat).2 = .ok q →
       q.slug = p.slug ∧ q.customer_chat_id = p.customer_chat_id) ∧
    (∀ p q, getProject s sl = some p → p.executor_chat_id ≠ some chat →
       p.customer_chat_id = some chat → (unlink_chat s sl chat).2 = .ok q →
       q.slug = p.slug ∧ q.executor_chat_id = p.executor_chat_id) ∧
    (∀ p q, getProject s sl = some p → p.executor_chat_id ≠ some chat →
       p.customer_chat_id ≠ some chat → (unlink_chat s sl chat).2 = .ok q →
       q.slug = p.slug ∧ q.executor_chat_id = p.executor_chat_id ∧
       q.customer_chat_id = p.customer_chat_id) ∧
    (sl' ≠ sl →
       getProject (create_project s sl c).1 sl' = getProject s sl' ∧
       getProject (bind_customer s sl c).1 sl' = getProject s sl' ∧
       getProject (unlink_chat s sl chat).1 sl' = getProject s sl') := by
  refine ⟨?_, ?_, ?_, ?_, ?_⟩
  · intro p q h hq
    rw [bind_customer_of_found h c] at hq
    simp only [Except.ok.injEq] at hq
    rw [← hq]
    exact ⟨rfl, rfl⟩
  · intro p q h he hc hq
    rw [unlink_chat_exec_only h he hc] at hq
    simp only [Except.ok.injEq] at hq
    rw [← hq]
    exact ⟨rfl, rfl⟩
  · intro p q h he hc hq
    rw [unlink_chat_cust_only h he hc] at hq
    simp only [Except.ok.injEq] at hq
    rw [← hq]
    exact ⟨rfl, rfl⟩
  · intro p q h he hc hq
    rw [unlink_chat_stale h he hc] at hq
    simp only [Except.ok.injEq] at hq
    rw [← hq]
    exact ⟨rfl, rfl, rfl⟩
  · intro hne
    refine ⟨?_, ?_, ?_⟩
    · cases h : getProject s sl with
      | some p => rw [create_project_of_found h c]
      | none =>
          rw [create_project_of_missing h c]
          exact findSlug_append_ne s.projects ⟨sl, none, some c, true⟩ sl'
            fun hh => hne (hh ▸ rfl)
    · cases h : getProject s sl with
      | none => rw [bind_customer_of_missing h c]
      | some p =>
          rw [bind_customer_of_found h c]
          exact getProject_updateBySlug_other s sl sl' _ (fun _ => rfl) hne
    · cases h : getProject s sl with
      | none => rw [unlink_chat_of_missing h chat]
      | some p =>
          by_cases he : p.executor_chat_id = some chat
          · by_cases hc : p.customer_chat_id = some chat
            · rw [unlink_chat_both h he hc]
              exact getProject_updateBySlug_other s sl sl' _ (fun _ => rfl) hne
            · rw [unlink_chat_exec_only h he hc]
              exact getProject_updateBySlug_other s sl sl' _ (fun _ => rfl) hne
          · by_cases hc : p.customer_chat_id = some chat
            · rw [unlink_chat_cust_only h he hc]
              exact getProject_updateBySlug_other s sl sl' _ (fun _ => rfl) hne
            · rw [unlink_chat_stale h he hc]
              exact getProject_updateBySlug_other s sl sl' _ (fun _ => rfl) hne

/-- Witness for C9: binding customer 9 to "p" does not change the lookup of
the unrelated slug "q". -/
theorem C9_frame_witness :
    getProject
      (bind_customer ⟨[⟨"p", none, some 1, true⟩, ⟨"q", some 3, some 4, true⟩]⟩
        "p" 9).1 "q" =
    getProject ⟨[⟨"p", none, some 1, true⟩, ⟨"q", some 3, some 4, true⟩]⟩ "q" := by
  exact ((C9_frame ⟨[⟨"p", none, some 1, true⟩, ⟨"q", some 3, some 4, true⟩]⟩
    "p" "q" 9 9).2.2.2.2 (by decide)).2.1

theorem intTruthy_some_iff {n : Int} : intTruthy (some n) = true ↔ n ≠ 0 := by
  simp [intTruthy]

theorem route_eq_found (s : Store) (chat : Int) {p : Project}
    (hf : find_by_chat s chat = some p) :
    route s chat =
      if p.is_active = false then none
      else if p.executor_chat_id = some chat ∧
          intTruthy p.customer_chat_id = true then
        some (p.customer_chat_id.getD 0, Role.executor)
      else if p.customer_chat_id = some chat ∧
          intTruthy p.executor_chat_id = true then
        some (p.executor_chat_id.getD 0, Role.customer)
      else none := by
  unfold route
  rw [hf]

theorem intTruthy_true_iff {o : Option Int} :
    intTruthy o = true ↔ ∃ n, o = some n ∧ n ≠ 0 := by
  cases o with
  | none => simp [intTruthy]
  | some n => simp [intTruthy]

/-- C3 (amended): the router forwards exactly when an active project is
found for the source chat and the source matches an endpoint whose
counterpart is set to a nonzero chat id (the code tests Python truthiness,
so a counterpart bound to chat id 0 is treated as unset): no project or an
inactive project drops the message; a source equal to the executor chat
with a nonzero customer chat forwards to the customer chat with role
executor; otherwise a source equal to the customer chat with a nonzero
executor chat forwards to the executor chat with role customer; a matching
endpoint whose counterpart is unset (or zero) drops the message. -/
theorem C3_routing (s : Store) (chat : Int) :
    (find_by_chat s chat = none → route s chat = none) ∧
    (∀ p, find_by_chat s chat = some p → p.is_active = false →
       route s chat = none) ∧
    (∀ p c, find_by_chat s chat = some p → p.is_active = true →
       p.executor_chat_id = some chat → p.customer_chat_id = some c → c ≠ 0 →
       route s chat = some (c, Role.executor)) ∧
    (∀ p e, find_by_chat s chat = some p → p.is_active = true →
       p.executor_chat_id ≠ some chat → p.customer_chat_id = some chat →
       p.executor_chat_id = some e → e ≠ 0 →
       route s chat = some (e, Role.customer)) ∧
    (∀ p, find_by_chat s chat = some p → p.executor_chat_id = some chat →
       intTruthy p.customer_chat_id = false → route s chat = none) ∧
    (∀ p, find_by_chat s chat = some p → p.customer_chat_id = some chat →
       intTruthy p.executor_chat_id = false → route s chat = none) ∧
    (∀ d r, route s chat = some (d, r) →
       ∃ p, find_by_chat s chat = some p ∧ p.is_active = true ∧
         ((p.executor_chat_id = some chat ∧ p.customer_chat_id = some d ∧
             d ≠ 0 ∧ r = Role.executor) ∨
          (p.customer_chat_id = some chat ∧ p.executor_chat_id = some d ∧
             d ≠ 0 ∧ r = Role.customer))) := by
  refine ⟨?_, ?_, ?_, ?_, ?_, ?_, ?_⟩
  · intro h
    simp [route, h]
  · intro p h hact
    simp [route, h, hact]
  · intro p c h hact he hc hc0
    simp [route, h, hact, he, hc, intTruthy_some_iff, hc0]
  · intro p e h hact he hc hee he0
    have hne : e ≠ chat := fun hh => he (by rw [hee, hh])
    simp [route, h, hact, hc, hee, hne, intTruthy_some_iff, he0]
  · intro p h he hci
    by_cases hact : p.is_active = false
    · simp [route, h, hact]
    · by_cases hq : p.customer_chat_id = some chat
      · have hz : chat = 0 := by
          rw [hq] at hci
          by_contra hnz
          rw [intTruthy_some_iff.mpr hnz] at hci
          cases hci
        have hei : intTruthy p.executor_chat_id = false := by
          rw [he, hz]
          simp [intTruthy]
        simp [route, h, hact, hci, hei]
      · simp [route, h, hact, hci, hq]
  · intro p h hc hei
    by_cases hact : p.is_active = false
    · simp [route, h, hact]
    · by_cases hq : p.executor_chat_id = some chat
      · have hz : chat = 0 := by
          rw [hq] at hei
          by_contra hnz
          rw [intTruthy_some_iff.mpr hnz] at hei
          cases hei
        have hci : intTruthy p.customer_chat_id = false := by
          rw [hc, hz]
          simp [intTruthy]
        simp [route, h, hact, hci, hei]
      · simp [route, h, hact, hei, hq]
  · intro d r h
    cases hf : find_by_chat s chat with
    | none => rw [route, hf] at h; cases h
    | some p =>
        rw [route_eq_found s chat hf] at h
        refine ⟨p, rfl, ?_⟩
        by_cases hact : p.is_active = false
        · rw [if_pos hact] at h; cases h
        · rw [if_neg hact] at h
          refine ⟨by revert hact; cases p.is_active <;> simp, ?_⟩
          by_cases h1 : p.executor_chat_id = some chat ∧
              intTruthy p.customer_chat_id = true
          · rw [if_pos h1] at h
            obtain ⟨n, hn, hn0⟩ := intTruthy_true_iff.mp h1.2
            rw [hn] at h
            simp only [Option.getD_some, Option.some.injEq, Prod.mk.injEq] at h
            exact Or.inl ⟨h1.1, by rw [hn, h.1], by rw [← h.1]; exact hn0, h.2.symm⟩
          · rw [if_neg h1] at h
            by_cases h2 : p.customer_chat_id = some chat ∧
                intTruthy p.executor_chat_id = true
            · rw [if_pos h2] at h
              obtain ⟨n, hn, hn0⟩ := intTruthy_true_iff.mp h2.2
              rw [hn] at h
              simp only [Option.getD_some, Option.some.injEq, Prod.mk.injEq] at h
              exact Or.inr ⟨h2.1, by rw [hn, h.1], by rw [← h.1]; exact hn0, h.2.symm⟩
            · rw [if_neg h2] at h
              cases h

/-- Witness for C3: on a store binding executor chat 111 and customer chat
222 to an active project, a message from chat 111 is routed to chat 222
with role executor. -/
theorem C3_routing_witness :
    route ⟨[⟨"p", some 222, some 111, true⟩]⟩ 111 =
      some (222, Role.executor) := by
  exact (C3_routing ⟨[⟨"p", some 222, some 111, true⟩]⟩ 111).2.2.1
    ⟨"p", some 222, some 111, true⟩ 222 rfl rfl rfl rfl (by decide)

/-- C3 counterexample: a project whose customer chat id is bound to 0 (set,
in the claim's sense) and whose executor chat is 5: the claim says a message
from chat 5 is forwarded to the customer chat, but the code drops it, since
the truthiness test treats 0 as unset. -/
theorem C3_counterexample :
    find_by_chat ⟨[⟨"p", some 0, some 5, true⟩]⟩ 5 =
      some ⟨"p", some 0, some 5, true⟩ ∧
    Project.is_active ⟨"p", some 0, some 5, true⟩ = true ∧
    Project.executor_chat_id ⟨"p", some 0, some 5, true⟩ = some 5 ∧
    (Project.customer_chat_id ⟨"p", some 0, some 5, true⟩).isSome = true ∧
    route ⟨[⟨"p", some 0, some 5, true⟩]⟩ 5 = none := by
  refine ⟨?_, rfl, rfl, rfl, ?_⟩ <;> decide

/-- C7: a message authored by the relay's own automated identity (a bot
account) is never routed to any destination, for every store state. -/
theorem C7_self_message_never_relayed (s : Store) (msg : Message)
    (source_chat_id botUserId : Int)
    (h : msg.from_user = some (relayIdentity botUserId)) :
    relay_message s msg source_chat_id = none := by
  simp [relay_message, msgFromBot, h, relayIdentity]

/-- Witness for C7: a text message from the relay identity inside the bound
executor chat of an active, fully bound project is still dropped. -/
theorem C7_self_message_never_relayed_witness :
    relay_message ⟨[⟨"p", some 222, some 111, true⟩]⟩
      ⟨some (relayIdentity 42), some "hello", none, [], none, none, none, none⟩
      111 = none := by
  exact C7_self_message_never_relayed ⟨[⟨"p", some 222, some 111, true⟩]⟩
    ⟨some (relayIdentity 42), some "hello", none, [], none, none, none, none⟩
    111 42 rfl

/-- C10: no message whose author is marked as a bot is ever routed,
whatever the store contains. -/
theorem C10_bot_author_never_relayed (s : Store) (msg : Message)
    (source_chat_id : Int) (u : User) (hu : msg.from_user = some u)
    (hb : u.is_bot = true) :
    relay_message s msg source_chat_id = none := by
  simp [relay_message, msgFromBot, hu, hb]

/-- Witness for C10: a bot-authored photo message from the bound customer
chat of an active project is dropped. -/
theorem C10_bot_author_never_relayed_witness :
    relay_message ⟨[⟨"p", some 222, some 111, true⟩]⟩
      ⟨some ⟨99, true⟩, none, none, ["fid"], none, none, none, none⟩ 222 =
      none := by
  exact C10_bot_author_never_relayed ⟨[⟨"p", some 222, some 111, true⟩]⟩
    ⟨some ⟨99, true⟩, none, none, ["fid"], none, none, none, none⟩ 222
    ⟨99, true⟩ rfl rfl

/-- C2 (amended): every attachment-bearing payload the router decides to
forward is forwarded as the same media kind; a non-empty caption is
forwarded as the role prefix applied to the caption; with no caption the
media is forwarded with no caption at all (the prefixed generic placeholder
appears only in the fallback for payloads with no recognized attachment and
no text). -/
theorem C2_media_relay (s : Store) (msg : Message) (source_chat_id t : Int)
    (r : Role) (hbot : msgFromBot msg = false)
    (hroute : route s source_chat_id = some (t, r)) :
    (msg.photo ≠ [] →
       relay_message s msg source_chat_id =
         some (.sendPhoto t (msg.photo.getLastD "")
           (captionTagged msg.caption r))) ∧
    (∀ d, msg.photo = [] → msg.document = some d →
       relay_message s msg source_chat_id =
         some (.sendDocument t d (captionTagged msg.caption r))) ∧
    (∀ v, msg.photo = [] → msg.document = none → msg.voice = some v →
       relay_message s msg source_chat_id =
         some (.sendVoice t v (captionTagged msg.caption r))) ∧
    (∀ a, msg.photo = [] → msg.document = none → msg.voice = none →
       msg.audio = some a →
       relay_message s msg source_chat_id =
         some (.sendAudio t a (captionTagged msg.caption r))) ∧
    (∀ v, msg.photo = [] → msg.document = none → msg.voice = none →
       msg.audio = none → msg.video = some v →
       relay_message s msg source_chat_id =
         some (.sendVideo t v (captionTagged msg.caption r))) ∧
    (∀ c, msg.caption = some c → c ≠ "" →
       captionTagged msg.caption r = some (action_labels r ++ " " ++ c)) ∧
    (msg.caption = none → captionTagged msg.caption r = none) := by
  refine ⟨?_, ?_, ?_, ?_, ?_, ?_, ?_⟩
  · intro hp
    simp [relay_message, hbot, hroute, relay_media, hp]
  · intro d hp hd
    simp [relay_message, hbot, hroute, relay_media, hp, hd]
  · intro v hp hd hv
    simp [relay_message, hbot, hroute, relay_media, hp, hd, hv]
  · intro a hp hd hv ha
    simp [relay_message, hbot, hroute, relay_media, hp, hd, hv, ha]
  · intro v hp hd hv ha hvid
    simp [relay_message, hbot, hroute, relay_media, hp, hd, hv, ha, hvid]
  · intro c hc hne
    have hcf : c.isEmpty = false := by
      rw [Bool.eq_false_iff]
      intro hh
      exact hne ((String.isEmpty_iff c).mp hh)
    simp [captionTagged, hc, hcf]
  · intro hc
    simp [captionTagged, hc]

/-- Witness for C2: a two-photo message with caption "hi" from the executor
chat is forwarded as a photo of the last file id with the prefixed
caption. -/
theorem C2_media_relay_witness :
    relay_message ⟨[⟨"p", some 222, some 111, true⟩]⟩
      ⟨some ⟨10, false⟩, none, some "hi", ["f1", "f2"], none, none, none, none⟩
      111 =
      some (.sendPhoto 222 "f2" (some ("🧑‍🎨 Команда:" ++ " " ++ "hi"))) := by
  exact (C2_media_relay ⟨[⟨"p", some 222, some 111, true⟩]⟩
    ⟨some ⟨10, false⟩, none, some "hi", ["f1", "f2"], none, none, none, none⟩
    111 222 .executor rfl (by decide)).1 (by decide)

/-- C2 counterexample: a captionless, textless photo from the bound executor
chat is forwarded with no caption at all, not with the role prefix plus the
generic placeholder the claim requires. -/
theorem C2_counterexample :
    relay_message ⟨[⟨"p", some 222, some 111, true⟩]⟩
      ⟨some ⟨10, false⟩, none, none, ["fid"], none, none, none, none⟩ 111 =
      some (.sendPhoto 222 "fid" none) ∧
    Outgoing.sendPhoto 222 "fid" none ≠
      Outgoing.sendPhoto 222 "fid"
        (some (action_labels Role.executor ++ " " ++
          "(неизвестный тип сообщения)")) := by
  constructor
  · rfl
  · decide

end TelegramRelay
